import Mathlib

/-!
Formal model of the voicescope real-time interview engine.

The definitions below are a shallow embedding of the turn-taking
orchestration code of the repository:

* `useInterviewEngine` (the orchestrator hook): phases, speaking flags,
  the silence timer, the 5-minute session deadline, and the handlers
  `speakText`, `getAIResponse`, `handleUserFinishedSpeaking`,
  `startListening`, `startInterview`, `endInterviewInternal`.
* `useDeepgram` (the streaming transcription client): interim/final
  buffers, `connect`, `disconnect`, `reset`, and the `onclose`
  reconnection policy.
* `AudioRecorder` / `useAudioRecorder` (the capture pipeline) and its
  two-level `stop` behaviour.
* The `/api/stt/token` route.

The engine is modelled as a sequential event system: every handler is a
function from a `World` (the combined mutable state of the hook, its
refs, and the subsystems it owns) to a `Run`, which records the final
world, the list of intermediate worlds passed through (one entry per
state mutation in the source), and the list of externally visible
actions performed, in order.  External collaborators (the chat endpoint,
the TTS endpoint, the token endpoint, the microphone) are represented by
an `Oracle` giving the outcome of each call.
-/

namespace VoiceScope

/-- The `InterviewPhase` union type of `useInterviewEngine`. -/
inductive InterviewPhase where
  | idle
  | connecting
  | interviewing
  | processing
  | completed
  | error
  deriving DecidableEq, Repr

/-- Speaker role of an `InterviewMessage` (`"ai" | "respondent"`). -/
inductive Role where
  | ai
  | respondent
  deriving DecidableEq, Repr

/-- An `InterviewMessage` record (role, content, timestamp). -/
structure InterviewMessage where
  role : Role
  content : String
  timestamp : Nat
  deriving DecidableEq, Repr

/-- JavaScript `String.prototype.trim()`: strip leading and trailing
whitespace.  (Defined on the character list so that it evaluates inside
the kernel.) -/
def jsTrim (s : String) : String :=
  ⟨((s.data.dropWhile Char.isWhitespace).reverse.dropWhile Char.isWhitespace).reverse⟩

/-- `MAX_INTERVIEW_DURATION_MS = 5 * 60 * 1000`. -/
def MAX_INTERVIEW_DURATION_MS : Nat := 5 * 60 * 1000

/-- `SILENCE_THRESHOLD_MS = 2000`. -/
def SILENCE_THRESHOLD_MS : Nat := 2000

/--
The combined mutable state of the engine: the React state of
`useInterviewEngine`, its refs, and the state of the owned subsystems
(the recorder hook, the Deepgram hook, the audio player).
-/
structure World where
  phase : InterviewPhase
  messages : List InterviewMessage
  currentTranscript : String
  elapsedTime : Nat
  turnCount : Nat
  isAISpeaking : Bool
  isUserSpeaking : Bool
  error : Option String
  isEnding : Bool            -- isEndingRef
  timerRunning : Bool        -- timerRef non-null
  startTime : Nat            -- startTimeRef
  silenceArmed : Bool        -- a pending (unfired, uncleared) silence timeout
  lastTranscript : String    -- lastTranscriptRef
  recRecording : Bool        -- useAudioRecorder.isRecording
  recError : Option String   -- useAudioRecorder.error
  dgConnected : Bool         -- useDeepgram.isConnected
  dgInterim : String         -- useDeepgram.transcript
  dgFull : String            -- useDeepgram.fullTranscript / fullTranscriptRef
  dgError : Option String    -- useDeepgram.error
  playerPlaying : Bool       -- AudioPlayer.isPlaying
  deriving DecidableEq, Repr

/-- The initial state of the hook (all `useState` initialisers). -/
def World.init : World where
  phase := InterviewPhase.idle
  messages := []
  currentTranscript := ""
  elapsedTime := 0
  turnCount := 0
  isAISpeaking := false
  isUserSpeaking := false
  error := none
  isEnding := false
  timerRunning := false
  startTime := 0
  silenceArmed := false
  lastTranscript := ""
  recRecording := false
  recError := none
  dgConnected := false
  dgInterim := ""
  dgFull := ""
  dgError := none
  playerPlaying := false

/-- Externally visible actions performed by the handlers, in order. -/
inductive Action where
  | commitPhase (p : InterviewPhase)  -- a setPhase call
  | startApiCall                      -- POST /api/interviews/:id/start
  | chatCall                          -- POST /api/ai/chat (the turn generator)
  | ttsCall                           -- POST /api/ai/tts (the speech synthesizer)
  | scoreCall                         -- POST /api/interviews/:id/score
  | stopSessionTimer                  -- clearInterval(timerRef)
  | stopCapture                       -- recorder.stopRecording()
  | disconnectTranscription           -- deepgram.disconnect()
  | stopPlayback                      -- playerRef.current?.stop()
  | cancelQuiescence                  -- clearTimeout(silenceTimerRef)
  deriving DecidableEq, Repr

/--
The result of running one handler: the final world, the intermediate
worlds passed through (one per state mutation in the source, final
included), and the actions performed.
-/
structure Run where
  w : World
  trace : List World
  acts : List Action

/-- Outcome of a `POST /api/ai/chat` call: failure, or a response body
`{response, shouldEnd}`. -/
inductive ChatOutcome where
  | fail
  | ok (text : String) (shouldEnd : Bool)
  deriving DecidableEq, Repr

/-- Outcomes of the external collaborator calls made while handling one
event, plus the current wall-clock time. -/
structure Oracle where
  now : Nat
  start : Option String      -- /start response body message (none = request failed)
  chat : ChatOutcome
  ttsOk : Bool
  connectOk : Bool           -- token fetch + WebSocket open
  recStartOk : Bool          -- getUserMedia
  scoreOk : Bool

/--
`speakText` (the TTS path): sets `isAISpeaking`, fetches `/api/ai/tts`,
plays the audio to completion; a failure is caught and logged
(`console.warn`), and the `finally` block clears `isAISpeaking`.  No
message is appended and no error state is set on failure.
-/
def speakText (ttsOk : Bool) (w : World) : Run :=
  let w1 := { w with isAISpeaking := true }
  if ttsOk then
    let w2 := { w1 with playerPlaying := true }
    let w3 := { w2 with playerPlaying := false }
    let w4 := { w3 with isAISpeaking := false }
    ⟨w4, [w1, w2, w3, w4], [Action.ttsCall]⟩
  else
    let w2 := { w1 with isAISpeaking := false }
    ⟨w2, [w1, w2], [Action.ttsCall]⟩

/--
`useDeepgram.connect`: early-returns when already open; otherwise clears
the error, fetches a token and opens the socket.  All failures are
caught inside `connect` (it never throws to the caller).
-/
def dgConnect (ok : Bool) (w : World) : World :=
  if w.dgConnected then w
  else if ok then { w with dgError := none, dgConnected := true }
  else { w with dgError := some "STTトークンの取得に失敗しました", dgConnected := false }

/--
`useDeepgram.disconnect`: sends the CloseStream control message when the
socket is open, closes with code 1000 and marks disconnected.  It does
not touch the transcript buffers.
-/
def dgDisconnect (w : World) : World :=
  { w with dgConnected := false }

/--
`useDeepgram.reset`: clears `fullTranscriptRef`, `fullTranscript`,
`transcript` and `error`.  Note: no orchestrator code path ever calls
this function.
-/
def dgReset (w : World) : World :=
  { w with dgFull := "", dgInterim := "", dgError := none }

/--
`useAudioRecorder.startRecording`: recreates the recorder and starts it;
a `getUserMedia` failure is caught inside the hook (error message set,
`isRecording` left false) and never thrown to the caller.
-/
def recStart (ok : Bool) (w : World) : World :=
  if ok then { w with recError := none, recRecording := true }
  else { w with recError := some "マイクへのアクセスに失敗しました。", recRecording := false }

/--
`startListening`: guarded on `phaseRef.current === "interviewing"`; sets
`isUserSpeaking`, clears the visible transcript, connects Deepgram,
starts the recorder, and arms the silence timer.  Note that it does not
call `deepgram.reset()`, so `dgFull` keeps its accumulated value.
-/
def startListening (o : Oracle) (w : World) : Run :=
  if w.phase = InterviewPhase.interviewing then
    let w1 := { w with isUserSpeaking := true, currentTranscript := "" }
    let w2 := dgConnect o.connectOk w1
    let w3 := recStart o.recStartOk w2
    let w4 := { w3 with silenceArmed := true }
    ⟨w4, [w1, w2, w3, w4], []⟩
  else ⟨w, [], []⟩

/--
`endInterviewInternal`: guarded by `isEndingRef`; commits `processing`,
stops the session timer, stops the recorder (only when recording),
disconnects Deepgram, stops the player, clears any pending silence
timeout, clears both speaking flags, calls the scoring endpoint, and
commits `completed` whether or not scoring succeeded.
-/
def endInterviewInternal (w : World) : Run :=
  if w.isEnding then ⟨w, [], []⟩
  else
    let w1 := { w with isEnding := true }
    let w2 := { w1 with phase := InterviewPhase.processing }
    let w3 := { w2 with timerRunning := false }
    let w4 := { w3 with recRecording := false }
    let w5 := dgDisconnect w4
    let w6 := { w5 with playerPlaying := false }
    let w7 := { w6 with silenceArmed := false }
    let w8 := { w7 with isAISpeaking := false }
    let w9 := { w8 with isUserSpeaking := false }
    let w10 := { w9 with phase := InterviewPhase.completed }
    ⟨w10, [w1, w2, w3, w4, w5, w6, w7, w8, w9, w10],
      [Action.commitPhase InterviewPhase.processing, Action.stopSessionTimer]
        ++ (if w.recRecording then [Action.stopCapture] else [])
        ++ [Action.disconnectTranscription, Action.stopPlayback,
            Action.cancelQuiescence, Action.scoreCall,
            Action.commitPhase InterviewPhase.completed]⟩

/-- `endInterview` (the public stop request) just delegates. -/
def endInterview (w : World) : Run :=
  endInterviewInternal w

/--
`getAIResponse`: guarded on `phaseRef.current === "interviewing"`;
commits `processing`, calls the turn generator once; on failure sets the
error message and commits `error` (no retry, no fallback utterance); on
success appends the AI message, increments the turn count, commits
`interviewing`, speaks, then either ends the interview (shouldEnd) or
resumes listening.
-/
def getAIResponse (o : Oracle) (_userMessage : String) (w : World) : Run :=
  if w.phase = InterviewPhase.interviewing then
    let w1 := { w with phase := InterviewPhase.processing }
    match o.chat with
    | ChatOutcome.fail =>
        let w2 := { w1 with error := some "AI応答の取得に失敗しました",
                            phase := InterviewPhase.error }
        ⟨w2, [w1, w2],
          [Action.commitPhase InterviewPhase.processing, Action.chatCall,
           Action.commitPhase InterviewPhase.error]⟩
    | ChatOutcome.ok aiText shouldEnd =>
        let w2 := { w1 with
          messages := w1.messages ++ [⟨Role.ai, aiText, o.now⟩],
          turnCount := w1.turnCount + 1 }
        let w3 := { w2 with phase := InterviewPhase.interviewing }
        let r4 := speakText o.ttsOk w3
        let r5 := if shouldEnd then endInterviewInternal r4.w
                  else startListening o r4.w
        ⟨r5.w, [w1, w2, w3] ++ r4.trace ++ r5.trace,
          [Action.commitPhase InterviewPhase.processing, Action.chatCall,
           Action.commitPhase InterviewPhase.interviewing]
            ++ r4.acts ++ r5.acts⟩
  else ⟨w, [], []⟩

/--
`handleUserFinishedSpeaking`: clears `isUserSpeaking`, stops the
recorder, disconnects Deepgram, then takes
`deepgram.fullTranscript.trim() || lastTranscriptRef.current.trim()` as
the utterance; when empty it re-opens listening, otherwise it appends
the respondent message and calls the turn generator.
-/
def handleUserFinishedSpeaking (o : Oracle) (w : World) : Run :=
  let w1 := { w with isUserSpeaking := false }
  let w2 := { w1 with recRecording := false }
  let w3 := dgDisconnect w2
  let userText := if jsTrim w3.dgFull ≠ "" then jsTrim w3.dgFull
                  else jsTrim w3.lastTranscript
  if userText = "" then
    let r := startListening o w3
    ⟨r.w, [w1, w2, w3] ++ r.trace, r.acts⟩
  else
    let w4 := { w3 with
      messages := w3.messages ++ [⟨Role.respondent, userText, o.now⟩],
      currentTranscript := "" }
    let r := getAIResponse o userText w4
    ⟨r.w, [w1, w2, w3, w4] ++ r.trace, r.acts⟩

/--
The silence timeout firing (the callback armed by `resetSilenceTimer`):
the pending timeout is consumed; end of turn is handled only when the
engine is `interviewing` and the recorder is recording.
-/
def silenceFire (o : Oracle) (w : World) : Run :=
  let w0 := { w with silenceArmed := false }
  if w.phase = InterviewPhase.interviewing ∧ w.recRecording then
    let r := handleUserFinishedSpeaking o w0
    ⟨r.w, w0 :: r.trace, r.acts⟩
  else ⟨w0, [w0], []⟩

/--
One tick of the interval started by `startTimer`: publishes the elapsed
time and, at or past the 5-minute budget, ends the interview.
-/
def timerTick (now : Nat) (w : World) : Run :=
  let w1 := { w with elapsedTime := now - w.startTime }
  if MAX_INTERVIEW_DURATION_MS ≤ now - w.startTime then
    let r := endInterviewInternal w1
    ⟨r.w, w1 :: r.trace, r.acts⟩
  else ⟨w1, [w1], []⟩

/--
`startInterview`: guarded on `phase === "idle"`; resets counters and
state, initialises the player, calls the session-start endpoint; on
failure commits `error`; on success commits `interviewing`, starts the
session timer, appends the opening AI message (with a default greeting
when the response message is empty), speaks it, and starts listening.
-/
def startInterview (o : Oracle) (w : World) : Run :=
  if w.phase = InterviewPhase.idle then
    let w1 := { w with isEnding := false }
    let w2 := { w1 with phase := InterviewPhase.connecting, error := none,
                        messages := [], currentTranscript := "",
                        turnCount := 0, elapsedTime := 0 }
    match o.start with
    | none =>
        let w3 := { w2 with error := some "インタビューセッションの開始に失敗しました",
                            phase := InterviewPhase.error }
        ⟨w3, [w1, w2, w3],
          [Action.commitPhase InterviewPhase.connecting, Action.startApiCall,
           Action.commitPhase InterviewPhase.error]⟩
    | some m =>
        let firstMessage := if m = "" then "こんにちは。インタビューを始めましょう。" else m
        let w3 := { w2 with phase := InterviewPhase.interviewing }
        let w4 := { w3 with timerRunning := true, startTime := o.now }
        let w5 := { w4 with messages := [⟨Role.ai, firstMessage, o.now⟩],
                            turnCount := 1 }
        let r6 := speakText o.ttsOk w5
        let r7 := startListening o r6.w
        ⟨r7.w, [w1, w2, w3, w4, w5] ++ r6.trace ++ r7.trace,
          [Action.commitPhase InterviewPhase.connecting, Action.startApiCall,
           Action.commitPhase InterviewPhase.interviewing]
            ++ r6.acts ++ r7.acts⟩
  else ⟨w, [], []⟩

/--
The `ws.onmessage` handler of `useDeepgram` for a `Results` event: a
final with non-blank text is appended to the cumulative transcript and
the interim buffer is cleared; an interim overwrites the interim buffer.
-/
def dgMessage (isFinal : Bool) (text : String) (w : World) : World :=
  if isFinal then
    { w with dgFull := if jsTrim text ≠ "" then w.dgFull ++ text else w.dgFull,
             dgInterim := "" }
  else { w with dgInterim := text }

/--
The transcript-sync effect of `useInterviewEngine`: publishes
`fullTranscript + transcript` as the current transcript, and re-arms the
silence timer when that combined text changed and is non-blank.
-/
def transcriptSync (w : World) : Run :=
  let combined := w.dgFull ++ w.dgInterim
  let w1 := { w with currentTranscript := combined }
  if combined ≠ w.lastTranscript ∧ jsTrim combined ≠ "" then
    let w2 := { w1 with lastTranscript := combined, silenceArmed := true }
    ⟨w2, [w1, w2], []⟩
  else ⟨w1, [w1], []⟩

/-- A transcription event followed by the React effect it triggers. -/
def dgEvent (isFinal : Bool) (text : String) (w : World) : Run :=
  let w1 := dgMessage isFinal text w
  let r := transcriptSync w1
  ⟨r.w, w1 :: r.trace, r.acts⟩

/-- The Deepgram error-propagation effect of `useInterviewEngine`. -/
def dgErrorSync (w : World) : World :=
  match w.dgError with
  | some e => if w.phase = InterviewPhase.interviewing then { w with error := some e } else w
  | none => w

/-- The recorder error-propagation effect of `useInterviewEngine`. -/
def recErrorSync (w : World) : World :=
  match w.recError with
  | some e => if w.phase = InterviewPhase.interviewing then { w with error := some e } else w
  | none => w

/--
Reachability of a world under the engine's event system: the initial
state, plus every intermediate state produced while handling any of the
externally triggered events (start request, stop request, timer tick,
silence timeout, transcription event, error propagation), subject to
each event's enabling condition.
-/
inductive Reach : World → Prop where
  | init : Reach World.init
  | startEv (o : Oracle) {w w' : World} :
      Reach w → w' ∈ (startInterview o w).trace → Reach w'
  | stopEv {w w' : World} :
      Reach w → w' ∈ (endInterview w).trace → Reach w'
  | tickEv (now : Nat) {w w' : World} :
      Reach w → w.timerRunning = true → w' ∈ (timerTick now w).trace → Reach w'
  | silenceEv (o : Oracle) {w w' : World} :
      Reach w → w.silenceArmed = true → w' ∈ (silenceFire o w).trace → Reach w'
  | dgEv (isFinal : Bool) (text : String) {w w' : World} :
      Reach w → w.dgConnected = true → w' ∈ (dgEvent isFinal text w).trace → Reach w'
  | dgErrEv {w : World} : Reach w → Reach (dgErrorSync w)
  | recErrEv {w : World} : Reach w → Reach (recErrorSync w)

/-!
Standalone model of the silence / end-of-turn detector: the part of the
engine driven by a stream of timestamped transcription events.  This is
the same `onmessage` fold and transcript-sync effect as above, but with
the quiescence timer's fire time carried explicitly so that statements
about real time can be made.
-/

namespace Detector

/-- One timestamped transcription event (`{isFinal, text}` at `time` ms). -/
structure TEvent where
  time : Nat
  isFinal : Bool
  text : String
  deriving DecidableEq, Repr

/-- The detector-relevant state: the two transcript buffers, the last
combined text seen by the sync effect, and the absolute time at which
the pending quiescence timeout will fire (none = no pending timeout). -/
structure DState where
  dgInterim : String
  dgFull : String
  lastTranscript : String
  deadline : Option Nat
  deriving DecidableEq, Repr

/-- Detector state at the start of a listening window. -/
def init : DState := ⟨"", "", "", none⟩

/-- The `ws.onmessage` fold for a `Results` event. -/
def onResult (ev : TEvent) (s : DState) : DState :=
  if ev.isFinal then
    { s with dgFull := if jsTrim ev.text ≠ "" then s.dgFull ++ ev.text else s.dgFull,
             dgInterim := "" }
  else { s with dgInterim := ev.text }

/-- The transcript-sync effect: when the combined text changed and is
non-blank, `resetSilenceTimer` re-arms the 2 s timeout. -/
def syncStep (now : Nat) (s : DState) : DState :=
  let combined := s.dgFull ++ s.dgInterim
  if combined ≠ s.lastTranscript ∧ jsTrim combined ≠ "" then
    { s with lastTranscript := combined,
             deadline := some (now + SILENCE_THRESHOLD_MS) }
  else s

/-- Processing one event: the message fold, then the sync effect. -/
def stepEvent (ev : TEvent) (s : DState) : DState :=
  syncStep ev.time (onResult ev s)

/-- Processing a whole event stream in order. -/
def run (evs : List TEvent) (s : DState) : DState :=
  evs.foldl (fun s ev => stepEvent ev s) s

end Detector

/-!
Model of the `ws.onclose` reconnection policy of `useDeepgram`
(`reconnectAttemptRef`, `intentionalCloseRef`).
-/

namespace Reconnect

/-- The connection-policy state of `useDeepgram`. -/
structure DgConnState where
  reconnectAttempt : Nat
  intentionalClose : Bool
  errorMsg : Option String
  deriving DecidableEq, Repr

/-- State right after a (re)connection attempt opened: `ws.onopen`
resets the attempt counter. -/
def initConn : DgConnState := ⟨0, false, none⟩

/-- What the `onclose` handler decides to do. -/
inductive CloseDecision where
  | scheduleReconnect (delayMs : Nat)
  | surfaceError
  | noAction
  deriving DecidableEq, Repr

/-- The backoff delay used after the attempt counter was incremented:
`Math.min(1000 * Math.pow(2, attempt), 8000)`. -/
def reconnectDelay (attempt : Nat) : Nat :=
  min (1000 * 2 ^ attempt) 8000

/--
The `ws.onclose` handler: on an abnormal closure (not intentional and
close code ≠ 1000) it increments the attempt counter and schedules a
reconnect while at most 3 attempts have been made, and otherwise sets a
terminal error message.
-/
def onClose (closeCode : Nat) (s : DgConnState) : DgConnState × CloseDecision :=
  if s.intentionalClose = false ∧ closeCode ≠ 1000 then
    if s.reconnectAttempt < 3 then
      let a := s.reconnectAttempt + 1
      ({ s with reconnectAttempt := a },
       CloseDecision.scheduleReconnect (reconnectDelay a))
    else
      ({ s with errorMsg := some "Deepgramへの接続が切断されました。再接続に失敗しました。" },
       CloseDecision.surfaceError)
  else (s, CloseDecision.noAction)

/-- Folding `onClose` over a sequence of consecutive closures (no
successful `onopen` in between, so the attempt counter is never reset). -/
def runCloses : List Nat → DgConnState → DgConnState × List CloseDecision
  | [], s => (s, [])
  | c :: cs, s =>
    let p := onClose c s
    let q := runCloses cs p.1
    (q.1, p.2 :: q.2)

/-- The reconnection delays scheduled in a decision sequence. -/
def delaysOf (ds : List CloseDecision) : List Nat :=
  ds.filterMap (fun d => match d with
    | CloseDecision.scheduleReconnect ms => some ms
    | _ => none)

end Reconnect

/-!
Model of the capture pipeline's stop behaviour: the `AudioRecorder`
class (`recorder.ts`) and the `useAudioRecorder` hook wrapping it.
Audio data is opaque; a chunk is represented by a `Nat`.
-/

namespace Capture

/-- The private state of the `AudioRecorder` class. -/
structure RecorderClass where
  recording : Bool
  audioChunks : List Nat
  hasMediaRecorder : Bool
  hasStream : Bool
  deriving DecidableEq, Repr

/-- `AudioRecorder.stop`: rejects with an error when there is no
`MediaRecorder` or recording is not in progress; otherwise resolves with
the accumulated blob, clearing the chunk buffer. -/
def recorderStop (r : RecorderClass) : Except String (RecorderClass × List Nat) :=
  if r.hasMediaRecorder = false ∨ r.recording = false then
    Except.error "録音中ではありません"
  else
    Except.ok ({ r with recording := false, audioChunks := [] }, r.audioChunks)

/-- The React state of `useAudioRecorder`. -/
structure HookState where
  isRecording : Bool
  audioBlob : Option (List Nat)
  errorMsg : Option String
  recorder : Option RecorderClass
  deriving DecidableEq, Repr

/--
`useAudioRecorder.stopRecording`: returns null without touching any
state when there is no recorder or it is not recording; otherwise calls
`AudioRecorder.stop`, storing the blob on success and catching the
rejection (error message, `isRecording := false`) on failure.
-/
def stopRecording (s : HookState) : HookState × Option (List Nat) :=
  match s.recorder with
  | none => (s, none)
  | some r =>
    if r.recording = false then (s, none)
    else
      match recorderStop r with
      | Except.ok p =>
          ({ s with recorder := some p.1, audioBlob := some p.2,
                    isRecording := false }, some p.2)
      | Except.error msg =>
          ({ s with errorMsg := some msg, isRecording := false }, none)

end Capture

/-!
Model of the STT token endpoint `GET /api/stt/token`
(`src/app/api/stt/token/route.ts`).
-/

namespace SttToken

/-- The JSON response of the route, with its HTTP status. -/
structure TokenResponse where
  status : Nat
  token : Option String
  url : Option String
  errorMsg : Option String
  deriving DecidableEq, Repr

/-- Outcome of `deepgram.manage.createProjectKey`: a thrown error, or a
result whose `key` field may be absent. -/
inductive KeyCreation where
  | ok (key : Option String)
  | failed
  deriving DecidableEq, Repr

/--
The route handler: 500 when no server API key is configured; otherwise
tries to create a temporary project key and responds 200 with
`result?.key ?? apiKey`; when key creation throws, it logs a warning and
responds 200 with the permanent API key itself as the token.
-/
def GET (apiKey : Option String) (creation : KeyCreation) : TokenResponse :=
  match apiKey with
  | none => ⟨500, none, none, some "Deepgram APIキーが設定されていません"⟩
  | some k =>
    match creation with
    | KeyCreation.ok key => ⟨200, some (key.getD k), some "wss://api.deepgram.com/v1/listen", none⟩
    | KeyCreation.failed => ⟨200, some k, some "wss://api.deepgram.com/v1/listen", none⟩

end SttToken

/-!
Theorems.
-/

/-- C9: when creation of a temporary short-lived transcription key
fails, the STT token endpoint still responds with HTTP 200 and returns
the permanent server-side API key itself as the token, so a credential
returned by the endpoint is not always short-lived. -/
theorem c9_token_falls_back_to_permanent_key : ∀ k : String,
    SttToken.GET (some k) SttToken.KeyCreation.failed =
      ⟨200, some k, some "wss://api.deepgram.com/v1/listen", none⟩ := by
  intro k
  rfl

/-- C10: session termination is idempotent.  Every run of
`endInterviewInternal` leaves the `isEndingRef` guard set, a call made
with the guard already set changes nothing and performs no actions (so
teardown and the single scoring call happen at most once per session),
and the public `endInterview` is the same routine. -/
theorem c10_end_routine_idempotent : ∀ w : World,
    (endInterviewInternal w).w.isEnding = true ∧
    endInterviewInternal (endInterviewInternal w).w =
      ⟨(endInterviewInternal w).w, [], []⟩ ∧
    (endInterviewInternal w).acts.count Action.scoreCall ≤ 1 ∧
    endInterview w = endInterviewInternal w := by
  intro w
  by_cases h : w.isEnding
  · refine ⟨by simp [endInterviewInternal, dgDisconnect, h],
        by simp [endInterviewInternal, dgDisconnect, h], ?_, rfl⟩
    simp [endInterviewInternal, dgDisconnect, h]
  · by_cases hr : w.recRecording
    · refine ⟨by simp [endInterviewInternal, dgDisconnect, h],
          by simp [endInterviewInternal, dgDisconnect, h], ?_, rfl⟩
      simp [endInterviewInternal, dgDisconnect, h, hr, List.count_cons, List.count_append]
    · refine ⟨by simp [endInterviewInternal, dgDisconnect, h],
          by simp [endInterviewInternal, dgDisconnect, h], ?_, rfl⟩
      simp [endInterviewInternal, dgDisconnect, h, hr, List.count_cons, List.count_append]

/-- C7: stopping the capture pipeline twice in a row, or stopping a
pipeline that is not currently capturing, is a no-op that completes
without raising an error: `stopRecording` returns null leaving the state
untouched when no recorder exists or it is not recording, and a repeated
call after any stop is such a no-op. -/
theorem c7_capture_stop_idempotent :
    (∀ s : Capture.HookState, s.recorder = none →
        Capture.stopRecording s = (s, none)) ∧
    (∀ (s : Capture.HookState) (r : Capture.RecorderClass),
        s.recorder = some r → r.recording = false →
        Capture.stopRecording s = (s, none)) ∧
    (∀ s : Capture.HookState,
        Capture.stopRecording (Capture.stopRecording s).1 =
          ((Capture.stopRecording s).1, none)) := by
  refine ⟨?_, ?_, ?_⟩
  · intro s h
    simp [Capture.stopRecording, h]
  · intro s r h hrec
    simp [Capture.stopRecording, h, hrec]
  · intro s
    rcases s with ⟨ir, ab, em, rec⟩
    cases rec with
    | none => simp [Capture.stopRecording]
    | some r =>
      rcases r with ⟨rc, ch, hmr, hs⟩
      cases rc with
      | false => simp [Capture.stopRecording]
      | true =>
        cases hmr with
        | false => simp [Capture.stopRecording, Capture.recorderStop]
        | true => simp [Capture.stopRecording, Capture.recorderStop]

/-!
The speaking-flag invariant (claim C8).  `Inv` is the inductive
invariant: the two speaking flags are never both set; while the
interviewer speaks the recorder is stopped (so the silence timeout
cannot close a turn mid-speech); and in `idle` — a phase no transition
ever returns to — nothing is speaking or recording.
-/

/-- The inductive speaking-flag invariant. -/
def Inv (w : World) : Prop :=
  (w.isAISpeaking = false ∨ w.isUserSpeaking = false) ∧
  (w.isAISpeaking = true → w.recRecording = false) ∧
  (w.phase = InterviewPhase.idle →
    w.isUserSpeaking = false ∧ w.recRecording = false)

/-- Auxiliary: `Inv` only looks at four fields. -/
theorem Inv_congr {w w' : World} (hA : w'.isAISpeaking = w.isAISpeaking)
    (hU : w'.isUserSpeaking = w.isUserSpeaking)
    (hR : w'.recRecording = w.recRecording)
    (hP : w'.phase = w.phase) (h : Inv w) : Inv w' := by
  unfold Inv at *
  rw [hA, hU, hR, hP]
  exact h

/-- Auxiliary: every state passed through by `speakText` satisfies the
invariant, and its final state has the interviewer silent, provided the
respondent is not speaking and the recorder is stopped on entry. -/
theorem speakText_inv {w : World} (b : Bool) (hu : w.isUserSpeaking = false)
    (hr : w.recRecording = false) :
    (∀ w' ∈ (speakText b w).trace, Inv w') ∧
    (speakText b w).w.isAISpeaking = false ∧
    (speakText b w).w.isUserSpeaking = false ∧
    (speakText b w).w.recRecording = false ∧
    (speakText b w).w.phase = w.phase := by
  cases b <;> simp [speakText, Inv, hu, hr]

/-- Auxiliary: every state passed through by `startListening` satisfies
the invariant, provided it holds on entry and the interviewer is silent. -/
theorem startListening_inv (o : Oracle) {w : World}
    (_hI : Inv w) (ha : w.isAISpeaking = false) :
    ∀ w' ∈ (startListening o w).trace, Inv w' := by
  by_cases hp : w.phase = InterviewPhase.interviewing
  · by_cases hdg : w.dgConnected <;> cases hconn : o.connectOk <;>
      cases hrec : o.recStartOk <;>
        simp [startListening, dgConnect, recStart, Inv, hp, hdg, ha, hconn, hrec]
  · simp [startListening, hp]

/-- Auxiliary: every state passed through by `endInterviewInternal`
satisfies the invariant, provided it holds on entry. -/
theorem endInterviewInternal_inv {w : World} (hI : Inv w) :
    ∀ w' ∈ (endInterviewInternal w).trace, Inv w' := by
  intro w' hw'
  by_cases he : w.isEnding
  · simp [endInterviewInternal, he] at hw'
  · obtain ⟨h1, h2, h3⟩ := hI
    simp [endInterviewInternal, dgDisconnect, he] at hw'
    rcases hw' with h | h | h | h | h | h | h | h | h | h <;> subst h <;>
      simp_all [Inv]

/-- Auxiliary: every state passed through by `endInterview` satisfies
the invariant, provided it holds on entry. -/
theorem endInterview_inv {w : World} (hI : Inv w) :
    ∀ w' ∈ (endInterview w).trace, Inv w' :=
  endInterviewInternal_inv hI

/-- Auxiliary: the invariant holds at the final state of `speakText`,
whose interviewer flag is clear, under the same entry conditions. -/
theorem speakText_final_inv {w : World} (b : Bool)
    (hu : w.isUserSpeaking = false) (hr : w.recRecording = false) :
    Inv (speakText b w).w ∧ (speakText b w).w.isAISpeaking = false := by
  cases b <;> simp [speakText, Inv, hu, hr]

/-- Auxiliary: every state passed through by `getAIResponse` satisfies
the invariant, provided it holds on entry with the respondent silent and
the recorder stopped. -/
theorem getAIResponse_inv (o : Oracle) (msg : String) {w : World}
    (_hI : Inv w) (hu : w.isUserSpeaking = false)
    (hr : w.recRecording = false) :
    ∀ w' ∈ (getAIResponse o msg w).trace, Inv w' := by
  intro w' hw'
  by_cases hp : w.phase = InterviewPhase.interviewing
  · cases hc : o.chat with
    | fail =>
      simp [getAIResponse, hp, hc] at hw'
      rcases hw' with h | h <;> subst h <;> simp_all [Inv]
    | ok text se =>
      cases se with
      | true =>
        simp [getAIResponse, hp, hc] at hw'
        rcases hw' with h | h | h | h | h
        · subst h; simp_all [Inv]
        · subst h; simp_all [Inv]
        · subst h; simp_all [Inv]
        · refine (speakText_inv o.ttsOk ?_ ?_).1 w' h
          · exact hu
          · exact hr
        · refine endInterviewInternal_inv ((speakText_final_inv o.ttsOk ?_ ?_).1) w' h
          · exact hu
          · exact hr
      | false =>
        simp [getAIResponse, hp, hc] at hw'
        rcases hw' with h | h | h | h | h
        · subst h; simp_all [Inv]
        · subst h; simp_all [Inv]
        · subst h; simp_all [Inv]
        · refine (speakText_inv o.ttsOk ?_ ?_).1 w' h
          · exact hu
          · exact hr
        · refine startListening_inv o ((speakText_final_inv o.ttsOk ?_ ?_).1)
            ((speakText_final_inv o.ttsOk ?_ ?_).2) w' h <;>
            first | exact hu | exact hr
  · simp [getAIResponse, hp] at hw'

/-- Auxiliary: every state passed through by
`handleUserFinishedSpeaking` satisfies the invariant, provided it holds
on entry and the interviewer is silent. -/
theorem handleUserFinishedSpeaking_inv (o : Oracle) {w : World}
    (hI : Inv w) (ha : w.isAISpeaking = false) :
    ∀ w' ∈ (handleUserFinishedSpeaking o w).trace, Inv w' := by
  intro w' hw'
  by_cases h1 : jsTrim w.dgFull = ""
  · by_cases h2 : jsTrim w.lastTranscript = ""
    · simp [handleUserFinishedSpeaking, dgDisconnect, h1, h2] at hw'
      rcases hw' with h | h | h | h
      · subst h; simp_all [Inv]
      · subst h; simp_all [Inv]
      · subst h; simp_all [Inv]
      · refine startListening_inv o ?_ ?_ w' h
        · exact ⟨Or.inr rfl, fun _ => rfl, fun _ => ⟨rfl, rfl⟩⟩
        · exact ha
    · simp [handleUserFinishedSpeaking, dgDisconnect, h1, h2] at hw'
      rcases hw' with h | h | h | h | h
      · subst h; simp_all [Inv]
      · subst h; simp_all [Inv]
      · subst h; simp_all [Inv]
      · subst h; simp_all [Inv]
      · refine getAIResponse_inv o _ ?_ ?_ ?_ w' h
        · exact ⟨Or.inr rfl, fun _ => rfl, fun _ => ⟨rfl, rfl⟩⟩
        · exact rfl
        · exact rfl
  · simp [handleUserFinishedSpeaking, dgDisconnect, h1] at hw'
    rcases hw' with h | h | h | h | h
    · subst h; simp_all [Inv]
    · subst h; simp_all [Inv]
    · subst h; simp_all [Inv]
    · subst h; simp_all [Inv]
    · refine getAIResponse_inv o _ ?_ ?_ ?_ w' h
      · exact ⟨Or.inr rfl, fun _ => rfl, fun _ => ⟨rfl, rfl⟩⟩
      · exact rfl
      · exact rfl

/-- Auxiliary: every state passed through by a silence-timeout firing
satisfies the invariant, provided it holds on entry. -/
theorem silenceFire_inv (o : Oracle) {w : World} (hI : Inv w) :
    ∀ w' ∈ (silenceFire o w).trace, Inv w' := by
  intro w' hw'
  by_cases hg : w.phase = InterviewPhase.interviewing ∧ w.recRecording = true
  · have ha : w.isAISpeaking = false := by
      by_cases hai : w.isAISpeaking = true
      · exact absurd (hI.2.1 hai) (by simp [hg.2])
      · simpa using hai
    unfold silenceFire at hw'
    rw [if_pos hg] at hw'
    simp only [List.mem_cons] at hw'
    rcases hw' with h | h
    · subst h; exact hI
    · refine handleUserFinishedSpeaking_inv o ?_ ?_ w' h
      · exact hI
      · exact ha
  · unfold silenceFire at hw'
    rw [if_neg hg] at hw'
    simp only [List.mem_singleton] at hw'
    subst hw'
    exact hI

/-- Auxiliary: every state passed through by `startInterview` satisfies
the invariant, provided it holds on entry. -/
theorem startInterview_inv (o : Oracle) {w : World} (hI : Inv w) :
    ∀ w' ∈ (startInterview o w).trace, Inv w' := by
  intro w' hw'
  by_cases hp : w.phase = InterviewPhase.idle
  · obtain ⟨hu, hr⟩ := hI.2.2 hp
    cases hs : o.start with
    | none =>
      simp [startInterview, hp, hs] at hw'
      rcases hw' with h | h | h <;> subst h <;> simp_all [Inv]
    | some m =>
      simp [startInterview, hp, hs] at hw'
      rcases hw' with h | h | h | h | h | h | h
      · subst h; simp_all [Inv]
      · subst h; simp_all [Inv]
      · subst h; simp_all [Inv]
      · subst h; simp_all [Inv]
      · subst h; simp_all [Inv]
      · refine (speakText_inv o.ttsOk ?_ ?_).1 w' h
        · exact hu
        · exact hr
      · refine startListening_inv o ((speakText_final_inv o.ttsOk ?_ ?_).1)
          ((speakText_final_inv o.ttsOk ?_ ?_).2) w' h <;>
          first | exact hu | exact hr
  · simp [startInterview, hp] at hw'

/-- Auxiliary: every state passed through by a timer tick satisfies the
invariant, provided it holds on entry. -/
theorem timerTick_inv (now : Nat) {w : World} (hI : Inv w) :
    ∀ w' ∈ (timerTick now w).trace, Inv w' := by
  intro w' hw'
  unfold timerTick at hw'
  by_cases hd : MAX_INTERVIEW_DURATION_MS ≤ now - w.startTime
  · rw [if_pos hd] at hw'
    simp only [List.mem_cons] at hw'
    rcases hw' with h | h
    · subst h; exact hI
    · refine endInterviewInternal_inv ?_ w' h
      exact hI
  · rw [if_neg hd] at hw'
    simp only [List.mem_singleton] at hw'
    subst hw'
    exact hI

/-- Auxiliary: the `onmessage` fold never touches the flag fields. -/
theorem dgMessage_inv (isFinal : Bool) (text : String) {w : World}
    (hI : Inv w) : Inv (dgMessage isFinal text w) := by
  cases isFinal <;> exact hI

/-- Auxiliary: the transcript-sync effect never touches the flag fields. -/
theorem transcriptSync_inv {w : World} (hI : Inv w) :
    ∀ w' ∈ (transcriptSync w).trace, Inv w' := by
  intro w' hw'
  simp only [transcriptSync] at hw'
  split at hw' <;> simp only [List.mem_cons, List.mem_singleton,
    List.not_mem_nil, or_false] at hw'
  · rcases hw' with h | h
    · subst h; exact hI
    · subst h; exact hI
  · subst hw'
    exact hI

/-- Auxiliary: transcription events and the sync effect only touch the
transcript fields, so they preserve the invariant. -/
theorem dgEvent_inv (isFinal : Bool) (text : String) {w : World}
    (hI : Inv w) : ∀ w' ∈ (dgEvent isFinal text w).trace, Inv w' := by
  intro w' hw'
  simp only [dgEvent, List.mem_cons] at hw'
  rcases hw' with h | h
  · subst h; exact dgMessage_inv isFinal text hI
  · exact transcriptSync_inv (dgMessage_inv isFinal text hI) w' h

/-- Auxiliary: Deepgram error propagation preserves the invariant. -/
theorem dgErrorSync_inv {w : World} (hI : Inv w) : Inv (dgErrorSync w) := by
  unfold dgErrorSync
  cases h : w.dgError with
  | none => exact hI
  | some e =>
    dsimp only
    by_cases hp : w.phase = InterviewPhase.interviewing
    · rw [if_pos hp]; exact hI
    · rw [if_neg hp]; exact hI

/-- Auxiliary: recorder error propagation preserves the invariant. -/
theorem recErrorSync_inv {w : World} (hI : Inv w) : Inv (recErrorSync w) := by
  unfold recErrorSync
  cases h : w.recError with
  | none => exact hI
  | some e =>
    dsimp only
    by_cases hp : w.phase = InterviewPhase.interviewing
    · rw [if_pos hp]; exact hI
    · rw [if_neg hp]; exact hI

/-- Auxiliary: the invariant holds in every reachable state. -/
theorem reach_inv {w : World} (h : Reach w) : Inv w := by
  induction h with
  | init => exact ⟨Or.inl rfl, fun h => rfl, fun _ => ⟨rfl, rfl⟩⟩
  | startEv o hR hmem ih => exact startInterview_inv o ih _ hmem
  | stopEv hR hmem ih => exact endInterview_inv ih _ hmem
  | tickEv now hR ht hmem ih => exact timerTick_inv now ih _ hmem
  | silenceEv o hR harm hmem ih => exact silenceFire_inv o ih _ hmem
  | dgEv f t hR hconn hmem ih => exact dgEvent_inv f t ih _ hmem
  | dgErrEv hR ih => exact dgErrorSync_inv ih
  | recErrEv hR ih => exact recErrorSync_inv ih

/-- C8: in every reachable engine state at most one of the two speaking
flags (`isAISpeaking` / `isUserSpeaking`) is true; both false is a valid
waiting condition. -/
theorem c8_speaking_flags_mutually_exclusive : ∀ w : World, Reach w →
    w.isAISpeaking = false ∨ w.isUserSpeaking = false :=
  fun _ h => (reach_inv h).1

/-- C8 witness: the invariant at the initial state. -/
theorem c8_speaking_flags_mutually_exclusive_witness :
    World.init.isAISpeaking = false ∨ World.init.isUserSpeaking = false :=
  c8_speaking_flags_mutually_exclusive World.init Reach.init

/-- Auxiliary: the `onmessage` fold never touches the quiescence timer. -/
theorem onResult_deadline (ev : Detector.TEvent) (s : Detector.DState) :
    (Detector.onResult ev s).deadline = s.deadline := by
  unfold Detector.onResult
  split <;> rfl

/-- Auxiliary: the quiescence timer after one sync effect. -/
theorem syncStep_deadline (now : Nat) (s : Detector.DState) :
    (Detector.syncStep now s).deadline =
      if (s.dgFull ++ s.dgInterim) ≠ s.lastTranscript ∧ jsTrim (s.dgFull ++ s.dgInterim) ≠ ""
      then some (now + SILENCE_THRESHOLD_MS) else s.deadline := by
  by_cases hc : (s.dgFull ++ s.dgInterim) ≠ s.lastTranscript ∧
      jsTrim (s.dgFull ++ s.dgInterim) ≠ ""
  · simp [Detector.syncStep, hc]
  · simp [Detector.syncStep, hc]

/-- Auxiliary: a pending fire time either predates an event or is
2 s after the event's timestamp. -/
theorem stepEvent_deadline (e : Detector.TEvent) (s : Detector.DState) (d : Nat)
    (h : (Detector.stepEvent e s).deadline = some d) :
    s.deadline = some d ∨ d = e.time + SILENCE_THRESHOLD_MS := by
  unfold Detector.stepEvent at h
  rw [syncStep_deadline] at h
  split at h
  · exact Or.inr (Option.some.inj h).symm
  · rw [onResult_deadline] at h
    exact Or.inl h

/-- C6 counterexample: a stream that never emits a final event, with two
identical interim events at 0 ms and 1000 ms.  The second event does not
change the accumulated text, so the quiescence timeout stays armed for
2000 ms — earlier than 2 s after the most recent transcription event
(3000 ms).  The claim as stated is therefore false on the code. -/
theorem c6_counterexample :
    (∀ e ∈ [Detector.TEvent.mk 0 false "a", Detector.TEvent.mk 1000 false "a"],
        e.isFinal = false) ∧
    (Detector.run [⟨0, false, "a"⟩, ⟨1000, false, "a"⟩] Detector.init).deadline =
      some 2000 ∧
    2000 < 1000 + SILENCE_THRESHOLD_MS := by
  refine ⟨by decide, by decide, by decide⟩

/-- C6 amended: every transcription event that changes the accumulated
combined text to a non-blank value re-arms the quiescence timeout to
fire exactly 2 s after that event, an event that leaves the text
unchanged (or blank) does not re-arm it, and hence every pending fire
time is 2 s after some event of the run (the most recent text-changing
one) — but possibly earlier than 2 s after the most recent event
overall. -/
theorem c6_detector_rearm_on_change :
    (∀ (now : Nat) (s : Detector.DState),
        (Detector.syncStep now s).deadline =
          if (s.dgFull ++ s.dgInterim) ≠ s.lastTranscript ∧
              jsTrim (s.dgFull ++ s.dgInterim) ≠ ""
          then some (now + SILENCE_THRESHOLD_MS) else s.deadline) ∧
    (∀ (evs : List Detector.TEvent) (s : Detector.DState) (d : Nat),
        (Detector.run evs s).deadline = some d →
        s.deadline = some d ∨ ∃ e ∈ evs, d = e.time + SILENCE_THRESHOLD_MS) := by
  refine ⟨syncStep_deadline, ?_⟩
  intro evs
  induction evs with
  | nil =>
    intro s d h
    exact Or.inl (by simpa [Detector.run] using h)
  | cons e es ih =>
    intro s d h
    have h' : (Detector.run es (Detector.stepEvent e s)).deadline = some d := by
      simpa [Detector.run] using h
    rcases ih (Detector.stepEvent e s) d h' with h1 | h1
    · rcases stepEvent_deadline e s d h1 with h2 | h2
      · exact Or.inl h2
      · exact Or.inr ⟨e, by simp, h2⟩
    · rcases h1 with ⟨e', he', hd⟩
      exact Or.inr ⟨e', by simp [he'], hd⟩

/-- C6 witness: the run lemma applied to a single interim event. -/
theorem c6_detector_rearm_on_change_witness :
    Detector.init.deadline = some 2000 ∨
      ∃ e ∈ [Detector.TEvent.mk 0 false "a"],
        2000 = e.time + SILENCE_THRESHOLD_MS :=
  c6_detector_rearm_on_change.2 [Detector.TEvent.mk 0 false "a"]
    Detector.init 2000 (by decide)

/-- Auxiliary: the decision sequence produced by a run of consecutive
abnormal closures, for an arbitrary starting attempt counter. -/
theorem runCloses_acts (codes : List Nat) (s : Reconnect.DgConnState)
    (h : ∀ c ∈ codes, c ≠ 1000) (hi : s.intentionalClose = false) :
    (Reconnect.runCloses codes s).2 =
      (([2000, 4000, 8000].drop s.reconnectAttempt).take codes.length).map
          Reconnect.CloseDecision.scheduleReconnect
        ++ List.replicate (codes.length - (3 - s.reconnectAttempt))
            Reconnect.CloseDecision.surfaceError := by
  induction codes generalizing s with
  | nil => simp [Reconnect.runCloses]
  | cons c cs ih =>
    obtain ⟨k, ic, em⟩ := s
    simp only at hi
    subst hi
    have hc : c ≠ 1000 := h c (by simp)
    have hcs : ∀ x ∈ cs, x ≠ 1000 := fun x hx => h x (by simp [hx])
    by_cases hk : k < 3
    · have step : Reconnect.onClose c ⟨k, false, em⟩ =
          (⟨k + 1, false, em⟩,
           Reconnect.CloseDecision.scheduleReconnect
             (Reconnect.reconnectDelay (k + 1))) := by
        simp [Reconnect.onClose, hc, hk]
      have tail := ih ⟨k + 1, false, em⟩ hcs rfl
      simp only [Reconnect.runCloses, step, tail]
      interval_cases k
      · have hrep : cs.length + 1 - 3 = cs.length - 2 := by omega
        norm_num [Reconnect.reconnectDelay, hrep]
      · have hrep : cs.length + 1 - 2 = cs.length - 1 := by omega
        norm_num [Reconnect.reconnectDelay, hrep]
      · have hrep : cs.length + 1 - 1 = cs.length - 0 := by omega
        norm_num [Reconnect.reconnectDelay, hrep]
    · have step : Reconnect.onClose c ⟨k, false, em⟩ =
          (⟨k, false, some "Deepgramへの接続が切断されました。再接続に失敗しました。"⟩,
           Reconnect.CloseDecision.surfaceError) := by
        simp [Reconnect.onClose, hc, hk]
      have tail := ih ⟨k, false, some "Deepgramへの接続が切断されました。再接続に失敗しました。"⟩ hcs rfl
      simp only [Reconnect.runCloses, step, tail]
      have hd : ([2000, 4000, 8000] : List Nat).drop k = [] := by
        apply List.drop_eq_nil_of_le
        simpa using Nat.le_of_not_lt hk
      have h3 : 3 - k = 0 := by omega
      simp [hd, h3, List.replicate_succ]

/-- Auxiliary: delays extracted from a pure schedule sequence. -/
theorem delaysOf_sched_map (l : List Nat) :
    Reconnect.delaysOf (l.map Reconnect.CloseDecision.scheduleReconnect) = l := by
  induction l with
  | nil => rfl
  | cons x xs ih => simp [Reconnect.delaysOf] at ih ⊢; exact ih

/-- Auxiliary: a run of surfaced errors schedules no delays. -/
theorem delaysOf_replicate_err (n : Nat) :
    Reconnect.delaysOf (List.replicate n Reconnect.CloseDecision.surfaceError) = [] := by
  induction n with
  | zero => rfl
  | succ n ih => simp [Reconnect.delaysOf, List.replicate_succ]

/-- C5: for every sequence of consecutive abnormal closures the client
schedules at most 3 reconnection attempts, with delays of exactly 2 s,
4 s and 8 s before the 1st, 2nd and 3rd attempts, and every closure
after the 3rd failed attempt surfaces the terminal connection error
instead of scheduling a reconnect. -/
theorem c5_reconnect_policy : ∀ codes : List Nat, (∀ c ∈ codes, c ≠ 1000) →
    (Reconnect.runCloses codes Reconnect.initConn).2 =
      (([2000, 4000, 8000].take codes.length).map
          Reconnect.CloseDecision.scheduleReconnect)
        ++ List.replicate (codes.length - 3) Reconnect.CloseDecision.surfaceError ∧
    Reconnect.delaysOf (Reconnect.runCloses codes Reconnect.initConn).2 =
      [2000, 4000, 8000].take codes.length := by
  intro codes h
  have acts := runCloses_acts codes Reconnect.initConn h rfl
  simp only [Reconnect.initConn, List.drop_zero] at acts
  refine ⟨acts, ?_⟩
  simp only [Reconnect.initConn]
  rw [acts]
  have h1 := delaysOf_sched_map ([2000, 4000, 8000].take codes.length)
  have h2 := delaysOf_replicate_err (codes.length - 3)
  unfold Reconnect.delaysOf at h1 h2 ⊢
  rw [List.filterMap_append, h1, h2, List.append_nil]

/-- C5 witness: four consecutive abnormal closures (code 1006) from a
fresh connection schedule reconnects after 2 s, 4 s, 8 s and then
surface the terminal error. -/
theorem c5_reconnect_policy_witness :
    (Reconnect.runCloses [1006, 1006, 1006, 1006] Reconnect.initConn).2 =
      [Reconnect.CloseDecision.scheduleReconnect 2000,
       Reconnect.CloseDecision.scheduleReconnect 4000,
       Reconnect.CloseDecision.scheduleReconnect 8000,
       Reconnect.CloseDecision.surfaceError] := by
  have h := (c5_reconnect_policy [1006, 1006, 1006, 1006] (by decide)).1
  simpa using h

/-- C3: when the session timer reaches the 300 s budget while the engine
is interviewing (and no end is already in progress), the tick handler
transitions to `processing` and then to `completed`, performing no
turn-generator call, and the terminal phase is `completed`, not `error`. -/
theorem c3_deadline_terminates_in_completed : ∀ (now : Nat) (w : World),
    w.phase = InterviewPhase.interviewing → w.isEnding = false →
    w.startTime + MAX_INTERVIEW_DURATION_MS ≤ now →
    (timerTick now w).w.phase = InterviewPhase.completed ∧
    Action.chatCall ∉ (timerTick now w).acts ∧
    (timerTick now w).acts =
      [Action.commitPhase InterviewPhase.processing, Action.stopSessionTimer]
        ++ (if w.recRecording then [Action.stopCapture] else [])
        ++ [Action.disconnectTranscription, Action.stopPlayback,
            Action.cancelQuiescence, Action.scoreCall,
            Action.commitPhase InterviewPhase.completed] := by
  intro now w _hp he hd
  have hcond : MAX_INTERVIEW_DURATION_MS ≤ now - w.startTime := by omega
  by_cases hr : w.recRecording <;>
    simp [timerTick, endInterviewInternal, dgDisconnect, he, hr, hcond]

/-- C3 witness: a concrete interviewing world hitting the deadline. -/
theorem c3_deadline_terminates_in_completed_witness :
    (timerTick 300000 { World.init with
        phase := InterviewPhase.interviewing,
        recRecording := true }).w.phase = InterviewPhase.completed ∧
    Action.chatCall ∉ (timerTick 300000 { World.init with
        phase := InterviewPhase.interviewing, recRecording := true }).acts := by
  have h := c3_deadline_terminates_in_completed 300000
    { World.init with phase := InterviewPhase.interviewing, recRecording := true }
    rfl rfl (by decide)
  exact ⟨h.1, h.2.1⟩

/-- C4: an explicit stop request with no end already in progress, in any
non-terminal phase, stops the capture pipeline (when recording),
disconnects the transcription client, stops the playback queue and
cancels any pending quiescence timeout, in exactly that order, all
before the terminal phase is committed, and the terminal phase is
`completed`, not `error`, with every subsystem stopped in the final
state. -/
theorem c4_stop_teardown_order : ∀ w : World,
    (w.phase = InterviewPhase.idle ∨ w.phase = InterviewPhase.connecting ∨
     w.phase = InterviewPhase.interviewing ∨ w.phase = InterviewPhase.processing) →
    w.isEnding = false →
    (endInterview w).acts =
      [Action.commitPhase InterviewPhase.processing, Action.stopSessionTimer]
        ++ (if w.recRecording then [Action.stopCapture] else [])
        ++ [Action.disconnectTranscription, Action.stopPlayback,
            Action.cancelQuiescence, Action.scoreCall,
            Action.commitPhase InterviewPhase.completed] ∧
    (endInterview w).w.phase = InterviewPhase.completed ∧
    (endInterview w).w.recRecording = false ∧
    (endInterview w).w.dgConnected = false ∧
    (endInterview w).w.playerPlaying = false ∧
    (endInterview w).w.silenceArmed = false := by
  intro w _hp he
  by_cases hr : w.recRecording <;>
    simp [endInterview, endInterviewInternal, dgDisconnect, he, hr]

/-- C4 witness: a stop request issued mid-`processing`. -/
theorem c4_stop_teardown_order_witness :
    (endInterview { World.init with phase := InterviewPhase.processing }).acts =
      [Action.commitPhase InterviewPhase.processing, Action.stopSessionTimer,
       Action.disconnectTranscription, Action.stopPlayback,
       Action.cancelQuiescence, Action.scoreCall,
       Action.commitPhase InterviewPhase.completed] ∧
    (endInterview { World.init with
        phase := InterviewPhase.processing }).w.phase = InterviewPhase.completed := by
  have h := c4_stop_teardown_order { World.init with phase := InterviewPhase.processing }
    (Or.inr (Or.inr (Or.inr rfl))) rfl
  exact ⟨by simpa using h.1, h.2.1⟩

/-!
A concrete scripted session used to exhibit transcript bleed-through:
the engine is started (opening question `q1`), the respondent's first
turn finalizes `hello `, a second turn is opened, and the respondent's
second turn finalizes `yes`.  No code path ever calls
`useDeepgram.reset`, so `fullTranscriptRef` keeps accumulating.
-/

/-- Oracle for the start event of the scripted session. -/
def oStartDemo : Oracle := ⟨0, some "q1", ChatOutcome.fail, true, true, true, true⟩

/-- Oracle for the first silence timeout of the scripted session. -/
def oTurn1Demo : Oracle := ⟨10000, none, ChatOutcome.ok "q2" false, true, true, true, true⟩

/-- Oracle for the second silence timeout of the scripted session. -/
def oTurn2Demo : Oracle := ⟨20000, none, ChatOutcome.ok "q3" false, true, true, true, true⟩

/-- The scripted session after the start event. -/
def demoAfterStart : World := (startInterview oStartDemo World.init).w

/-- … after the first turn's final transcription event `hello `. -/
def demoAfterFirstFinal : World := (dgEvent true "hello " demoAfterStart).w

/-- … after the first silence timeout (first respondent turn closed). -/
def demoAfterTurn1 : World := (silenceFire oTurn1Demo demoAfterFirstFinal).w

/-- … after the second turn's final transcription event `yes`. -/
def demoAfterSecondFinal : World := (dgEvent true "yes" demoAfterTurn1).w

/-- … after the second silence timeout (second respondent turn closed). -/
def demoEnd : World := (silenceFire oTurn2Demo demoAfterSecondFinal).w

/-- C2: `reset()` does clear the accumulated text, but the orchestrator
never calls it when opening a listening window, so the utterance
finalized for the second respondent turn is `hello yes` — it contains
the text `hello` finalized during the earlier turn (only `yes` was
transcribed in the second turn). -/
theorem c2_finalized_text_bleeds_across_turns :
    demoEnd.messages.map InterviewMessage.content =
      ["q1", "hello", "q2", "hello yes", "q3"] ∧
    demoAfterTurn1.dgFull = "hello " ∧
    (dgReset demoAfterTurn1).dgFull = "" ∧
    (dgReset demoAfterTurn1).dgInterim = "" := by
  refine ⟨by decide, by decide, by decide, by decide⟩

/-- C1 counterexample world: a live interviewing session. -/
def c1World : World :=
  { World.init with phase := InterviewPhase.interviewing,
                    messages := [⟨Role.ai, "q1", 0⟩] }

/-- C1 counterexample oracle: the turn-generator call fails. -/
def oChatFail : Oracle := ⟨0, none, ChatOutcome.fail, true, true, true, true⟩

/-- C1 counterexample: a single turn-generator failure makes the
orchestrator enter the `error` phase; the generator is called exactly
once (no silent retry) and no fallback utterance is appended. -/
theorem c1_counterexample :
    (getAIResponse oChatFail "hi" c1World).w.phase = InterviewPhase.error ∧
    (getAIResponse oChatFail "hi" c1World).w.messages = c1World.messages ∧
    (getAIResponse oChatFail "hi" c1World).acts.count Action.chatCall = 1 := by
  refine ⟨by decide, by decide, by decide⟩

/-- C1 amended: a failed turn-generator call is not retried and no
fallback utterance is appended — the orchestrator records the error
message and transitions to `error` on the first failure; a failed
speech-synthesis call is silently swallowed — no fallback utterance, no
error state, and listening resumes in the `interviewing` phase. -/
theorem c1_failure_semantics :
    (∀ (o : Oracle) (msg : String) (w : World),
        o.chat = ChatOutcome.fail → w.phase = InterviewPhase.interviewing →
        (getAIResponse o msg w).w.phase = InterviewPhase.error ∧
        (getAIResponse o msg w).w.error = some "AI応答の取得に失敗しました" ∧
        (getAIResponse o msg w).w.messages = w.messages ∧
        (getAIResponse o msg w).acts.count Action.chatCall = 1) ∧
    (∀ (o : Oracle) (msg text : String) (w : World),
        o.chat = ChatOutcome.ok text false → o.ttsOk = false →
        w.phase = InterviewPhase.interviewing →
        (getAIResponse o msg w).w.error = w.error ∧
        (getAIResponse o msg w).w.phase = InterviewPhase.interviewing ∧
        (getAIResponse o msg w).w.messages =
          w.messages ++ [⟨Role.ai, text, o.now⟩]) := by
  constructor
  · intro o msg w hc hp
    refine ⟨?_, ?_, ?_, ?_⟩ <;> simp [getAIResponse, hc, hp]
  · intro o msg text w hc htts hp
    by_cases hdg : w.dgConnected <;> by_cases hrec : o.recStartOk <;>
      by_cases hconn : o.connectOk <;>
        refine ⟨?_, ?_, ?_⟩ <;>
          simp [getAIResponse, startListening, speakText, dgConnect, recStart,
                hc, htts, hp, hdg, hrec, hconn]

/-- C1 witness: the speech-synthesis half at a concrete input. -/
theorem c1_failure_semantics_witness :
    (getAIResponse ⟨0, none, ChatOutcome.ok "next" false, false, true, true, true⟩
        "hi" c1World).w.error = c1World.error ∧
    (getAIResponse ⟨0, none, ChatOutcome.ok "next" false, false, true, true, true⟩
        "hi" c1World).w.phase = InterviewPhase.interviewing ∧
    (getAIResponse ⟨0, none, ChatOutcome.ok "next" false, false, true, true, true⟩
        "hi" c1World).w.messages = c1World.messages ++ [⟨Role.ai, "next", 0⟩] :=
  c1_failure_semantics.2 ⟨0, none, ChatOutcome.ok "next" false, false, true, true, true⟩
    "hi" "next" c1World rfl rfl rfl

/-- C7 witness: the first two conjuncts applied at concrete states. -/
theorem c7_capture_stop_idempotent_witness :
    Capture.stopRecording ⟨false, none, none, none⟩ = (⟨false, none, none, none⟩, none) ∧
    Capture.stopRecording ⟨false, none, none, some ⟨false, [], true, true⟩⟩ =
      (⟨false, none, none, some ⟨false, [], true, true⟩⟩, none) :=
  ⟨c7_capture_stop_idempotent.1 ⟨false, none, none, none⟩ rfl,
   c7_capture_stop_idempotent.2.1 ⟨false, none, none, some ⟨false, [], true, true⟩⟩
     ⟨false, [], true, true⟩ rfl rfl⟩

end VoiceScope
